import Mathlib

/-!
Formal model of the billing/invoice subsystem of the restaurant POS backend.

The repository contains several near-duplicate server variants:
- a document-file variant (src/server.mjs, both halves, and src/unnamed/part_002),
  storing bills as one nested array persisted wholesale, and
- a relational variant (src/unnamed/part_001), storing a bills header table plus
  a bill_items table, and a JSONB variant (src/unnamed/part_000).

The definitions below are shallow embeddings of the bill routes of those files.
Money values are embedded as exact rationals; invoice identities produced by
Date.now are integers.  Fallible coercions return Option.
-/

/- ===================== ECMAScript Number coercion model ===================== -/

/-- Result of coercing a string with the ECMAScript Number function, when it is
not NaN.  The pair denotes the exact decimal value mant / 10 ^ exp10 (unreduced,
so that all comparisons stay inside integer arithmetic). -/
structure JsNumber where
  mant : Int
  exp10 : Nat
deriving DecidableEq

/-- Ten to the power n, as an integer, by structural recursion. -/
def pow10 : Nat → Int
  | 0 => 1
  | n + 1 => 10 * pow10 n

/-- Whitespace characters stripped by Number coercion (the fragment of the
StrWhiteSpace production that route parameters can contain). -/
def isJsSpace (c : Char) : Bool :=
  c == ' ' || c == '\t' || c == '\n' || c == '\r'

/-- Strips leading and trailing whitespace from a character list. -/
def jsTrim (cs : List Char) : List Char :=
  ((cs.dropWhile isJsSpace).reverse.dropWhile isJsSpace).reverse

/-- Numeric value of a decimal digit character. -/
def digitVal (c : Char) : Nat := c.toNat - 48

/-- Value of a most-significant-first list of decimal digit characters. -/
def decDigitsVal (cs : List Char) : Nat :=
  cs.foldl (fun a c => a * 10 + digitVal c) 0

/-- Whether a character is a hexadecimal digit. -/
def isHexDigitChar (c : Char) : Bool :=
  c.isDigit || ('a' ≤ c.toLower && c.toLower ≤ 'f')

/-- Numeric value of a hexadecimal digit character. -/
def hexDigitVal (c : Char) : Nat :=
  if c.isDigit then c.toNat - 48 else c.toLower.toNat - 87

/-- Value of a most-significant-first list of hexadecimal digit characters. -/
def hexDigitsVal (cs : List Char) : Nat :=
  cs.foldl (fun a c => a * 16 + hexDigitVal c) 0

/-- Parses an unsigned decimal literal: digits with an optional fraction part,
as accepted by ECMAScript StringToNumber.  A lone dot is NaN (none). -/
def parseUnsignedDec (cs : List Char) : Option JsNumber :=
  let ip := cs.takeWhile Char.isDigit
  let rest := cs.drop ip.length
  match rest with
  | [] => if ip.isEmpty then none else some ⟨(decDigitsVal ip : Int), 0⟩
  | '.' :: fp =>
    if fp.all Char.isDigit && (ip.length + fp.length != 0)
    then some ⟨(decDigitsVal (ip ++ fp) : Int), fp.length⟩
    else none
  | _ => none

/-- Models the ECMAScript Number coercion applied by the routes to request
parameters, on the fragment those parameters exercise: whitespace trimming,
the empty string (0), signed decimal literals with an optional fraction, and
hexadecimal literals.  none models NaN.  Exponent notation, Infinity and
binary/octal literals lie outside the fragment used by this development. -/
def jsStringToNumber (s : String) : Option JsNumber :=
  let t := jsTrim s.data
  if t.isEmpty then some ⟨0, 0⟩
  else
    match t with
    | '0' :: 'x' :: rest =>
      if !rest.isEmpty && rest.all isHexDigitChar
      then some ⟨(hexDigitsVal rest : Int), 0⟩ else none
    | '0' :: 'X' :: rest =>
      if !rest.isEmpty && rest.all isHexDigitChar
      then some ⟨(hexDigitsVal rest : Int), 0⟩ else none
    | '-' :: rest => (parseUnsignedDec rest).map (fun n => ⟨-n.mant, n.exp10⟩)
    | '+' :: rest => parseUnsignedDec rest
    | cs => parseUnsignedDec cs

/-- The strict-equality test `coercedPath === storedId` performed by the lookup
routes, where the stored id is an integer (Date.now).  NaN (none) compares
unequal to every number, matching the semantics of ===. -/
def jsNumEqId (o : Option JsNumber) (i : Int) : Bool :=
  match o with
  | none => false
  | some n => n.mant == i * pow10 n.exp10

/- ===================== Document-file variant (src/server.mjs) ===================== -/

/-- A line item of a bill-creation request, as a JSON object: name, price and an
optional qty field (absent models a missing qty property). -/
structure Item where
  name : String
  price : ℚ
  qty : Option ℚ
deriving DecidableEq

/-- The items field of a bill-creation request body, as a JSON value.
missing models any falsy value (absent, null, 0, the empty string);
nonArr models a truthy non-array value together with its length property
(none when the value has no length, as for a number); arr is an array. -/
inductive ItemsVal where
  | missing : ItemsVal
  | nonArr (len : Option Nat) : ItemsVal
  | arr (xs : List Item) : ItemsVal
deriving DecidableEq

/-- A persisted bill of the document variant: the object pushed onto
db.data.bills by POST /api/bill (src/server.mjs lines 128 to 136). -/
structure Bill where
  id : Int
  mobile : String
  items : ItemsVal
  total : ℚ
  date : String
deriving DecidableEq

/-- The persisted state of the document variant (the menu collection is outside
the billing core and is omitted). -/
structure St where
  bills : List Bill
deriving DecidableEq

/-- A bill-creation request body.  mobile is the customer identifier, with the
empty string modelling a falsy value; total is the numeric value of the total
field when present. -/
structure BillReq where
  mobile : String
  items : ItemsVal
  total : Option ℚ
deriving DecidableEq

/-- Truthiness of the mobile field. -/
def jsTruthyStr (s : String) : Bool := !s.isEmpty

/-- Falsiness of the items field (the `!items` test). -/
def itemsFalsy : ItemsVal → Bool
  | .missing => true
  | _ => false

/-- The `items.length === 0` test.  A truthy non-array value without a length
property yields undefined, and `undefined === 0` is false. -/
def itemsLenEqZero : ItemsVal → Bool
  | .missing => false
  | .nonArr none => false
  | .nonArr (some n) => n == 0
  | .arr xs => xs.length == 0

/-- The rejection condition of POST /api/bill (src/server.mjs line 122):
`!mobile or !items or items.length === 0`. -/
def billRejected (req : BillReq) : Bool :=
  !jsTruthyStr req.mobile || itemsFalsy req.items || itemsLenEqZero req.items

/-- The `Number(total or 0)` computation of src/server.mjs line 132: a supplied
total is used as-is (a falsy 0 still coerces to 0); an absent total yields 0. -/
def jsResolveTotal (total : Option ℚ) : ℚ :=
  match total with
  | some t => t
  | none => 0

/-- Response of POST /api/bill. -/
inductive CreateResp where
  | created (invoiceId : Int) : CreateResp
  | badRequest (message : String) : CreateResp
deriving DecidableEq

/-- POST /api/bill of the document variant (src/server.mjs lines 118 to 147):
validate, build the invoice object with id = Date.now() (the now argument) and
date = new Date().toISOString() (the dateIso argument), push it, and return the
id. -/
def createBill (st : St) (req : BillReq) (now : Int) (dateIso : String) :
    CreateResp × St :=
  if billRejected req then (.badRequest "Mobile and items required", st)
  else
    let invoice : Bill := ⟨now, req.mobile, req.items, jsResolveTotal req.total, dateIso⟩
    (.created now, ⟨st.bills ++ [invoice]⟩)

/-- Response of the lookup routes. -/
inductive LookupResp where
  | found (b : Bill) : LookupResp
  | notFound : LookupResp
deriving DecidableEq

/-- GET /api/invoice/:id of the document variant (src/server.mjs lines 150 to
165): coerce the path parameter with Number, scan db.data.bills for the first
bill whose id strict-equals it, and answer 404 when none matches.  The route
performs no write, which the returned state makes explicit. -/
def getInvoice (path : String) (st : St) : LookupResp × St :=
  match st.bills.find? (fun b => jsNumEqId (jsStringToNumber path) b.id) with
  | some b => (.found b, st)
  | none => (.notFound, st)

/-- Response of GET /api/report. -/
structure ReportResp where
  bills : List Bill
  totalSales : ℚ
deriving DecidableEq

/-- GET /api/report of the document variant (src/server.mjs lines 356 to 374):
with a date query the bills are filtered by `(b.date or "").startsWith(date)`;
totalSales is the running sum of `Number(b.total or 0)` over the selected bills
(the stored total is already numeric, and a falsy 0 coerces to 0). -/
def report (dateQuery : Option String) (st : St) : ReportResp :=
  let bs :=
    match dateQuery with
    | some d => st.bills.filter (fun b => b.date.startsWith d)
    | none => st.bills
  ⟨bs, bs.foldl (fun s b => s + b.total) 0⟩

/-- One bill-creation call in a sequence: its request body together with the
wall-clock values the handler observes. -/
structure CreateStep where
  req : BillReq
  now : Int
  dateIso : String
deriving DecidableEq

/-- Runs a sequence of POST /api/bill calls against a store. -/
def runCreates (st : St) (steps : List CreateStep) : St :=
  steps.foldl (fun s stp => (createBill s stp.req stp.now stp.dateIso).2) st

/- ===================== Relational variant (src/unnamed/part_001) ===================== -/

/-- A line item as inserted by the relational variant (name, price, qty values
bound into the bill_items insert). -/
structure RelItemIn where
  name : String
  price : ℚ
  qty : ℚ
deriving DecidableEq

/-- A row of the bills header table.  total is nullable (the route binds the
request total unchecked, and an absent field becomes NULL). -/
structure RelBillRow where
  id : Int
  mobile : String
  total : Option ℚ
deriving DecidableEq

/-- A row of the bill_items table. -/
structure RelItemRow where
  bill_id : Int
  item_name : String
  price : ℚ
  qty : ℚ
deriving DecidableEq

/-- State of the relational store: the BIGSERIAL sequence of the bills table
and the two tables. -/
structure RelSt where
  nextId : Int
  bills : List RelBillRow
  billItems : List RelItemRow
deriving DecidableEq

/-- Response of the relational POST /api/bill. -/
inductive RelCreateResp where
  | created (invoiceId : Int) : RelCreateResp
  | serverError (message : String) : RelCreateResp
deriving DecidableEq

/-- The bill_items rows produced for a list of request items, in request
order. -/
def relInsertRows (billId : Int) (items : List RelItemIn) : List RelItemRow :=
  items.map (fun i => ⟨billId, i.name, i.price, i.qty⟩)

/-- POST /api/bill of the relational variant (src/unnamed/part_001 lines 178 to
207): insert the bills header row (id drawn from the BIGSERIAL sequence), then
insert each item row in a plain loop with no surrounding transaction.  failAt
injects a persistence failure: some k means the insert of item index k raises,
after the header and the first k item rows have already been committed; those
earlier writes are not rolled back, exactly as in the source, and the route
answers 500. -/
def relCreateBill (st : RelSt) (mobile : String) (total : Option ℚ)
    (items : List RelItemIn) (failAt : Option Nat) : RelCreateResp × RelSt :=
  let billId := st.nextId
  let stHeader : RelSt := ⟨st.nextId + 1, st.bills ++ [⟨billId, mobile, total⟩], st.billItems⟩
  match failAt with
  | some k =>
    if k < items.length then
      (.serverError "Failed to create bill",
        ⟨stHeader.nextId, stHeader.bills,
          stHeader.billItems ++ relInsertRows billId (items.take k)⟩)
    else
      (.created billId,
        ⟨stHeader.nextId, stHeader.bills, stHeader.billItems ++ relInsertRows billId items⟩)
  | none =>
    (.created billId,
      ⟨stHeader.nextId, stHeader.bills, stHeader.billItems ++ relInsertRows billId items⟩)

/-- Response of the relational GET /api/bill/:id.  dbError models the request
ending in a database error instead of a JSON answer: the route has no
try/catch, so the rejected query surfaces as an unhandled failure rather than a
404. -/
inductive RelLookupResp where
  | found (bill : RelBillRow) (items : List RelItemRow) : RelLookupResp
  | notFound : RelLookupResp
  | dbError : RelLookupResp
deriving DecidableEq

/-- The integer a coerced path value binds to as a bigint query parameter, when
it has one.  NaN and fractional values cannot be bound and make the query
fail. -/
def intOfJsNumber (n : JsNumber) : Option Int :=
  let d := pow10 n.exp10
  if n.mant % d == 0 then some (n.mant / d) else none

/-- GET /api/bill/:id of the relational variant (src/unnamed/part_001 lines 212
to 233): coerce the path with Number and bind it into `WHERE id=$1`.  A NaN or
non-integral value is rejected by the bigint parameter and, the route having no
try/catch, the request fails (dbError).  Otherwise the header row is looked up,
404 on no row, and the item rows referencing it are returned with it. -/
def relGetBill (idNum : Option JsNumber) (st : RelSt) : RelLookupResp :=
  match idNum with
  | none => .dbError
  | some n =>
    match intOfJsNumber n with
    | none => .dbError
    | some i =>
      match st.bills.find? (fun b => b.id == i) with
      | some b => .found b (st.billItems.filter (fun it => it.bill_id == b.id))
      | none => .notFound

/- ===================== Spec-derived comparison definition ===================== -/

/-- The total claimed by the spec for a request without a caller-supplied
total: the sum of price times quantity over the line items, quantity
defaulting to 1 when absent.  This definition follows the words of the spec,
not the source, and exists only to be compared against the code's behaviour. -/
def specItemsTotal (items : List Item) : ℚ :=
  (items.map (fun i => i.price * (match i.qty with | some q => q | none => 1))).sum

/- ===================== Helper lemmas ===================== -/

/-- Ten to any power is positive. -/
lemma pow10_pos (n : Nat) : 0 < pow10 n := by
  induction n with
  | zero => simp [pow10]
  | succ k ih =>
    have : (0 : Int) < 10 := by norm_num
    simpa [pow10] using mul_pos this ih

/-- Ten to any power is nonzero. -/
lemma pow10_ne_zero (n : Nat) : pow10 n ≠ 0 := (pow10_pos n).ne'

/-- A coerced path value strict-equals at most one integer identity. -/
lemma jsNumEqIdInj {o : Option JsNumber} {i i' : Int}
    (h1 : jsNumEqId o i = true) (h2 : jsNumEqId o i' = true) : i = i' := by
  cases o with
  | none => simp [jsNumEqId] at h1
  | some n =>
    simp only [jsNumEqId, beq_iff_eq] at h1 h2
    exact mul_right_cancel₀ (pow10_ne_zero n.exp10) (h1.symm.trans h2)

/-- find? returns the unique element satisfying the predicate when there is
one. -/
lemma findEqSomeOfUnique {α : Type} (p : α → Bool) (b : α) :
    ∀ l : List α, b ∈ l → p b = true → (∀ x ∈ l, p x = true → x = b) →
      l.find? p = some b := by
  intro l
  induction l with
  | nil => intro hmem; cases hmem
  | cons a t ih =>
    intro hmem hpb huniq
    cases hpa : p a with
    | true =>
      have ha : a = b := huniq a (List.mem_cons_self a t) hpa
      simp [List.find?_cons, hpa, ha, hpb]
    | false =>
      have hbt : b ∈ t := by
        rcases List.mem_cons.mp hmem with h | h
        · subst h; rw [hpb] at hpa; cases hpa
        · exact h
      have := ih hbt hpb (fun x hx hpx => huniq x (List.mem_cons_of_mem a hx) hpx)
      simp [List.find?_cons, hpa, this]

/-- Folding addition of totals over a list equals the initial value plus the
sum of the totals. -/
lemma foldlAddTotal (bs : List Bill) (a : ℚ) :
    bs.foldl (fun s b => s + b.total) a = a + (bs.map Bill.total).sum := by
  induction bs generalizing a with
  | nil => simp
  | cons x t ih => simp [List.foldl_cons, ih]; ring

/-- Running a sequence of creation calls appends new bills after the existing
ones, and the ids of the appended bills form a sublist of the observed clock
values. -/
lemma runCreatesAppendSublist (steps : List CreateStep) (st : St) :
    ∃ l : List Bill, (runCreates st steps).bills = st.bills ++ l ∧
      List.Sublist (l.map Bill.id) (steps.map CreateStep.now) := by
  induction steps generalizing st with
  | nil => exact ⟨[], by simp [runCreates], by simp⟩
  | cons s rest ih =>
    have hrun : runCreates st (s :: rest)
        = runCreates (createBill st s.req s.now s.dateIso).2 rest := rfl
    cases hrej : billRejected s.req with
    | true =>
      have hst : (createBill st s.req s.now s.dateIso).2 = st := by
        simp [createBill, hrej]
      obtain ⟨l, h1, h2⟩ := ih st
      refine ⟨l, ?_, ?_⟩
      · rw [hrun, hst]; exact h1
      · simpa using h2.cons s.now
    | false =>
      have hst : (createBill st s.req s.now s.dateIso).2
          = ⟨st.bills ++ [⟨s.now, s.req.mobile, s.req.items,
              jsResolveTotal s.req.total, s.dateIso⟩]⟩ := by
        simp [createBill, hrej]
      obtain ⟨l, h1, h2⟩ := ih ⟨st.bills ++ [⟨s.now, s.req.mobile, s.req.items,
        jsResolveTotal s.req.total, s.dateIso⟩]⟩
      refine ⟨⟨s.now, s.req.mobile, s.req.items, jsResolveTotal s.req.total, s.dateIso⟩ :: l,
        ?_, ?_⟩
      · rw [hrun, hst, h1]; simp
      · simpa using h2.cons₂ s.now


/- ===================== Claim theorems ===================== -/

/-- C1: for every valid bill-creation request (truthy customer identifier,
non-empty line-item array) whose creation timestamp is fresh (no stored bill
already carries it, as holds under a monotone wall clock), the invoice identity
returned by the creation call, used immediately for lookup, yields a bill whose
line items are exactly the input items in the same order and whose total is the
resolved total. -/
theorem C1_create_then_lookup_roundtrip
    (st : St) (req : BillReq) (now : Int) (dateIso : String) (xs : List Item) (path : String)
    (hitems : req.items = .arr xs) (hxs : xs ≠ [])
    (hmobile : jsTruthyStr req.mobile = true)
    (hfresh : ∀ b ∈ st.bills, b.id ≠ now)
    (hpath : jsNumEqId (jsStringToNumber path) now = true) :
    (createBill st req now dateIso).1 = .created now ∧
    ∃ b : Bill,
      (getInvoice path (createBill st req now dateIso).2).1 = .found b ∧
      b.items = .arr xs ∧ b.total = jsResolveTotal req.total := by
  have hrej : billRejected req = false := by
    simp [billRejected, hmobile, hitems, itemsFalsy, itemsLenEqZero, hxs]
  have hnone : st.bills.find? (fun b => jsNumEqId (jsStringToNumber path) b.id) = none := by
    apply List.find?_eq_none.mpr
    intro b hb hpb
    exact hfresh b hb (jsNumEqIdInj hpb hpath)
  refine ⟨by simp [createBill, hrej], ?_⟩
  refine ⟨⟨now, req.mobile, req.items, jsResolveTotal req.total, dateIso⟩, ?_, ?_, rfl⟩
  · simp [createBill, hrej, getInvoice, List.find?_append, hnone, List.find?_cons, hpath]
  · simpa using hitems

/-- C1 witness: a concrete creation on the empty store, looked up at the
returned identity. -/
theorem C1_witness :
    (createBill ⟨[]⟩ ⟨"9", .arr [⟨"tea", 10, some 1⟩], some 10⟩ 5 "d").1 = .created 5 ∧
    ∃ b : Bill,
      (getInvoice "5" (createBill ⟨[]⟩ ⟨"9", .arr [⟨"tea", 10, some 1⟩], some 10⟩ 5 "d").2).1
        = .found b ∧
      b.items = .arr [⟨"tea", 10, some 1⟩] ∧ b.total = jsResolveTotal (some 10) :=
  C1_create_then_lookup_roundtrip ⟨[]⟩ ⟨"9", .arr [⟨"tea", 10, some 1⟩], some 10⟩ 5 "d"
    [⟨"tea", 10, some 1⟩] "5" rfl (by decide) (by decide) (by simp) (by decide)

/-- C2: the relational creation loop has no transaction, so a failure injected
after the header insert and the first of two item inserts leaves a bill that a
subsequent lookup returns with one of its two items: a partially-populated
bill is observable, contradicting the claimed atomicity. -/
theorem C2_partial_bill_observable :
    (relCreateBill ⟨1, [], []⟩ "9999999999" (some 30)
        [⟨"tea", 10, 1⟩, ⟨"dosa", 20, 1⟩] (some 1)).1
      = .serverError "Failed to create bill" ∧
    relGetBill (some ⟨1, 0⟩)
        (relCreateBill ⟨1, [], []⟩ "9999999999" (some 30)
          [⟨"tea", 10, 1⟩, ⟨"dosa", 20, 1⟩] (some 1)).2
      = .found ⟨1, "9999999999", some 30⟩ [⟨1, "tea", 10, 1⟩] ∧
    ([⟨1, "tea", 10, 1⟩] : List RelItemRow).length = 1 := by
  decide

/-- C3: with a date query the report contains exactly the stored bills whose
creation timestamp has the supplied date as a textual prefix, and totalSales is
the sum of their totals; with no date it contains all stored bills and the sum
of all totals. -/
theorem C3_report_filters_by_date_and_sums (d : String) (st : St) :
    (∀ b : Bill, b ∈ (report (some d) st).bills ↔
        b ∈ st.bills ∧ b.date.startsWith d = true) ∧
    (report (some d) st).totalSales = ((report (some d) st).bills.map Bill.total).sum ∧
    (report none st).bills = st.bills ∧
    (report none st).totalSales = (st.bills.map Bill.total).sum := by
  refine ⟨?_, ?_, rfl, ?_⟩
  · intro b; simp [report, List.mem_filter]
  · simp [report, foldlAddTotal]
  · simp [report, foldlAddTotal]

/-- C4 counterexample: a truthy non-array items value with no length property
(such as a number) passes the `items.length === 0` check of the document
variant, so the request is accepted and a bill is persisted, refuting the claim
that every not-a-sequence items value is rejected with the collection
unchanged. -/
theorem C4_nonarray_items_accepted :
    (createBill ⟨[]⟩ ⟨"9", .nonArr none, some 10⟩ 5 "d").1 = .created 5 ∧
    (createBill ⟨[]⟩ ⟨"9", .nonArr none, some 10⟩ 5 "d").2.bills.length = 1 ∧
    (⟨[]⟩ : St).bills.length = 0 := by
  decide

/-- C4 (amended): a bill-creation request whose items value is falsy or has a
length property equal to 0 (in particular a missing list or an empty array) is
rejected with a client-error message before any write, and the persisted state
is unchanged. -/
theorem C4_missing_or_empty_items_rejected
    (st : St) (req : BillReq) (now : Int) (dateIso : String)
    (h : itemsFalsy req.items = true ∨ itemsLenEqZero req.items = true) :
    (createBill st req now dateIso).1 = .badRequest "Mobile and items required" ∧
    (createBill st req now dateIso).2 = st := by
  have hrej : billRejected req = true := by
    rcases h with h | h <;> simp [billRejected, h]
  simp [createBill, hrej]

/-- C4 witness: the empty item list is rejected and the store is unchanged. -/
theorem C4_witness :
    (createBill ⟨[]⟩ ⟨"9", .arr [], some 1⟩ 5 "d").1
      = .badRequest "Mobile and items required" ∧
    (createBill ⟨[]⟩ ⟨"9", .arr [], some 1⟩ 5 "d").2 = ⟨[]⟩ :=
  C4_missing_or_empty_items_rejected ⟨[]⟩ ⟨"9", .arr [], some 1⟩ 5 "d" (Or.inr (by decide))

/-- C5 counterexample: with the total field absent, the persisted total is 0,
not the sum of price times quantity over the line items (which the spec-derived
definition computes as 10 here). -/
theorem C5_total_not_recomputed :
    (createBill ⟨[]⟩ ⟨"9", .arr [⟨"tea", 5, some 2⟩], none⟩ 7 "d").2.bills.map Bill.total
      = [0] ∧
    specItemsTotal [⟨"tea", 5, some 2⟩] = 10 ∧ (0 : ℚ) ≠ 10 := by
  refine ⟨by decide, ?_, by norm_num⟩
  norm_num [specItemsTotal]

/-- C5 (amended): for every accepted bill-creation request, a supplied total is
persisted as-is after numeric coercion, and an absent total is persisted as 0;
the total is never recomputed from the line items. -/
theorem C5_total_passthrough_or_zero
    (st : St) (req : BillReq) (now : Int) (dateIso : String)
    (hacc : billRejected req = false) :
    ∃ b : Bill,
      (createBill st req now dateIso).2.bills = st.bills ++ [b] ∧
      (∀ t, req.total = some t → b.total = t) ∧
      (req.total = none → b.total = 0) := by
  refine ⟨⟨now, req.mobile, req.items, jsResolveTotal req.total, dateIso⟩, ?_, ?_, ?_⟩
  · simp [createBill, hacc]
  · intro t ht; simp [jsResolveTotal, ht]
  · intro ht; simp [jsResolveTotal, ht]

/-- C5 witness: a concrete accepted request with a supplied total of 10. -/
theorem C5_witness :
    ∃ b : Bill,
      (createBill ⟨[]⟩ ⟨"9", .arr [⟨"tea", 5, some 2⟩], some 10⟩ 5 "d").2.bills
        = (⟨[]⟩ : St).bills ++ [b] ∧
      (∀ t, (some (10 : ℚ)) = some t → b.total = t) ∧
      ((some (10 : ℚ)) = none → b.total = 0) :=
  C5_total_passthrough_or_zero ⟨[]⟩ ⟨"9", .arr [⟨"tea", 5, some 2⟩], some 10⟩ 5 "d" (by decide)

/-- C6: looking up an identity that no stored bill carries (which, the store
being append-only, is every identity never returned by a creation call)
answers 404 and leaves the stored data untouched. -/
theorem C6_unknown_identity_not_found
    (st : St) (path : String) (n : JsNumber) (i : Int)
    (hpath : jsStringToNumber path = some n)
    (hval : jsNumEqId (some n) i = true)
    (hnever : ∀ b ∈ st.bills, b.id ≠ i) :
    (getInvoice path st).1 = .notFound ∧ (getInvoice path st).2 = st := by
  have hnone : st.bills.find? (fun b => jsNumEqId (jsStringToNumber path) b.id) = none := by
    apply List.find?_eq_none.mpr
    intro b hb hpb
    rw [hpath] at hpb
    exact hnever b hb (jsNumEqIdInj hpb hval)
  simp [getInvoice, hnone]

/-- C6 witness: identity 7 was never issued on a store holding only bill 5. -/
theorem C6_witness :
    (getInvoice "7" ⟨[⟨5, "9", .arr [⟨"tea", 10, some 1⟩], 10, "d"⟩]⟩).1 = .notFound ∧
    (getInvoice "7" ⟨[⟨5, "9", .arr [⟨"tea", 10, some 1⟩], 10, "d"⟩]⟩).2
      = ⟨[⟨5, "9", .arr [⟨"tea", 10, some 1⟩], 10, "d"⟩]⟩ :=
  C6_unknown_identity_not_found ⟨[⟨5, "9", .arr [⟨"tea", 10, some 1⟩], 10, "d"⟩]⟩ "7"
    ⟨7, 0⟩ 7 (by decide) (by decide) (by decide)

/-- C7 counterexample: in the relational variant the non-numeric path parameter
coerces to NaN, which cannot be bound as the bigint query parameter; the route,
having no try/catch, ends in a database error rather than a 404, refuting the
claim for that variant. -/
theorem C7_relational_nan_db_error :
    jsStringToNumber "abc" = none ∧
    relGetBill (jsStringToNumber "abc")
        ⟨2, [⟨1, "9999999999", some 30⟩], [⟨1, "tea", 10, 1⟩]⟩ = .dbError ∧
    RelLookupResp.dbError ≠ .notFound := by
  decide

/-- C7 (amended): a lookup whose path parameter does not coerce to a number
returns 404 in the document variant, with no write; in the relational variant
the same request ends in an unhandled database error instead. -/
theorem C7_malformed_id_lookup
    (st : St) (rst : RelSt) (path : String)
    (h : jsStringToNumber path = none) :
    (getInvoice path st).1 = .notFound ∧ (getInvoice path st).2 = st ∧
    relGetBill (jsStringToNumber path) rst = .dbError := by
  have hnone : st.bills.find? (fun b => jsNumEqId (jsStringToNumber path) b.id) = none := by
    apply List.find?_eq_none.mpr
    intro b _ hpb
    rw [h] at hpb
    simp [jsNumEqId] at hpb
  refine ⟨?_, ?_, ?_⟩
  · simp [getInvoice, hnone]
  · simp [getInvoice, hnone]
  · rw [h]; rfl

/-- C7 witness: the path parameter abc. -/
theorem C7_witness :
    (getInvoice "abc" ⟨[⟨5, "9", .arr [⟨"tea", 10, some 1⟩], 10, "d"⟩]⟩).1 = .notFound ∧
    (getInvoice "abc" ⟨[⟨5, "9", .arr [⟨"tea", 10, some 1⟩], 10, "d"⟩]⟩).2
      = ⟨[⟨5, "9", .arr [⟨"tea", 10, some 1⟩], 10, "d"⟩]⟩ ∧
    relGetBill (jsStringToNumber "abc") ⟨1, [], []⟩ = .dbError :=
  C7_malformed_id_lookup ⟨[⟨5, "9", .arr [⟨"tea", 10, some 1⟩], 10, "d"⟩]⟩ ⟨1, [], []⟩
    "abc" (by decide)

/-- C8 counterexample: a line item with an empty name, a negative price and no
quantity passes creation untouched: the request is accepted (not rejected) and
the item is persisted verbatim, with no quantity defaulted. -/
theorem C8_invalid_items_accepted :
    (createBill ⟨[]⟩ ⟨"9", .arr [⟨"", -5, none⟩], some 3⟩ 5 "d").1 = .created 5 ∧
    (createBill ⟨[]⟩ ⟨"9", .arr [⟨"", -5, none⟩], some 3⟩ 5 "d").2.bills.map Bill.items
      = [.arr [⟨"", -5, none⟩]] := by
  decide

/-- C8 (amended): no per-line-item validation exists: every request passing the
top-level checks is accepted whatever its line items contain, and the items are
persisted exactly as supplied, with no quantity defaulting at the application
layer. -/
theorem C8_no_item_validation
    (st : St) (req : BillReq) (now : Int) (dateIso : String)
    (hacc : billRejected req = false) :
    (createBill st req now dateIso).1 = .created now ∧
    ∃ b : Bill, (createBill st req now dateIso).2.bills = st.bills ++ [b] ∧
      b.items = req.items := by
  refine ⟨by simp [createBill, hacc], ?_⟩
  exact ⟨⟨now, req.mobile, req.items, jsResolveTotal req.total, dateIso⟩,
    by simp [createBill, hacc], rfl⟩

/-- C8 witness: the empty-name, negative-price item is accepted and stored. -/
theorem C8_witness :
    (createBill ⟨[]⟩ ⟨"9", .arr [⟨"", -5, none⟩], some 3⟩ 5 "d").1 = .created 5 ∧
    ∃ b : Bill, (createBill ⟨[]⟩ ⟨"9", .arr [⟨"", -5, none⟩], some 3⟩ 5 "d").2.bills
        = (⟨[]⟩ : St).bills ++ [b] ∧
      b.items = ItemsVal.arr [⟨"", -5, none⟩] :=
  C8_no_item_validation ⟨[]⟩ ⟨"9", .arr [⟨"", -5, none⟩], some 3⟩ 5 "d" (by decide)

/-- C9 counterexample: two creation calls in the same millisecond observe the
same Date.now value and are both assigned that value as invoice identity: the
identities of the stored bills are not pairwise distinct. -/
theorem C9_same_millisecond_collision :
    ((runCreates ⟨[]⟩
        [⟨⟨"9", .arr [⟨"tea", 10, some 1⟩], some 10⟩, 5, "d"⟩,
         ⟨⟨"8", .arr [⟨"dosa", 20, some 1⟩], some 20⟩, 5, "e"⟩]).bills.map Bill.id)
      = [5, 5] ∧
    ¬ ((runCreates ⟨[]⟩
        [⟨⟨"9", .arr [⟨"tea", 10, some 1⟩], some 10⟩, 5, "d"⟩,
         ⟨⟨"8", .arr [⟨"dosa", 20, some 1⟩], some 20⟩, 5, "e"⟩]).bills.map Bill.id).Nodup := by
  decide

/-- C9 (amended): provided no two creation calls observe the same Date.now
value, the assigned invoice identities are pairwise distinct; and identities
are stable: creation only appends, so every bill already stored survives every
later creation sequence unchanged, its identity never regenerated. -/
theorem C9_ids_distinct_and_stable
    (steps : List CreateStep) (st : St)
    (h : (steps.map CreateStep.now).Nodup) :
    ((runCreates ⟨[]⟩ steps).bills.map Bill.id).Nodup ∧
    ∃ l : List Bill, (runCreates st steps).bills = st.bills ++ l := by
  constructor
  · obtain ⟨l, h1, h2⟩ := runCreatesAppendSublist steps ⟨[]⟩
    rw [h1]
    simpa using h.sublist h2
  · obtain ⟨l, h1, _⟩ := runCreatesAppendSublist steps st
    exact ⟨l, h1⟩

/-- C9 witness: two calls at distinct clock values 5 and 6. -/
theorem C9_witness :
    ((runCreates ⟨[]⟩
        [⟨⟨"9", .arr [⟨"tea", 10, some 1⟩], some 10⟩, 5, "d"⟩,
         ⟨⟨"8", .arr [⟨"dosa", 20, some 1⟩], some 20⟩, 6, "e"⟩]).bills.map Bill.id).Nodup ∧
    ∃ l : List Bill,
      (runCreates ⟨[⟨1, "7", .arr [⟨"idli", 30, some 1⟩], 30, "c"⟩]⟩
        [⟨⟨"9", .arr [⟨"tea", 10, some 1⟩], some 10⟩, 5, "d"⟩,
         ⟨⟨"8", .arr [⟨"dosa", 20, some 1⟩], some 20⟩, 6, "e"⟩]).bills
      = (⟨[⟨1, "7", .arr [⟨"idli", 30, some 1⟩], 30, "c"⟩]⟩ : St).bills ++ l :=
  C9_ids_distinct_and_stable
    [⟨⟨"9", .arr [⟨"tea", 10, some 1⟩], some 10⟩, 5, "d"⟩,
     ⟨⟨"8", .arr [⟨"dosa", 20, some 1⟩], some 20⟩, 6, "e"⟩]
    ⟨[⟨1, "7", .arr [⟨"idli", 30, some 1⟩], 30, "c"⟩]⟩ (by decide)

/-- C10: the document-variant lookup compares the Number-coerced path against
the stored id, so any path string whose numeric coercion equals the id of a
stored bill (the only stored bill with that id) retrieves that bill. -/
theorem C10_numeric_path_coercion_lookup
    (st : St) (b : Bill) (path : String)
    (hmem : b ∈ st.bills)
    (hpath : jsNumEqId (jsStringToNumber path) b.id = true)
    (huniq : ∀ x ∈ st.bills, x.id = b.id → x = b) :
    (getInvoice path st).1 = .found b := by
  have hfind : st.bills.find? (fun x => jsNumEqId (jsStringToNumber path) x.id) = some b :=
    findEqSomeOfUnique _ b st.bills hmem hpath
      (fun x hx hpx => huniq x hx (jsNumEqIdInj hpx hpath))
  simp [getInvoice, hfind]

/-- C10 witness: the paths 123.0, space-123 and 0x7b all retrieve the bill with
id 123. -/
theorem C10_witness :
    (getInvoice "123.0" ⟨[⟨123, "9", .arr [⟨"tea", 10, some 1⟩], 10, "d"⟩]⟩).1
      = .found ⟨123, "9", .arr [⟨"tea", 10, some 1⟩], 10, "d"⟩ ∧
    (getInvoice " 123" ⟨[⟨123, "9", .arr [⟨"tea", 10, some 1⟩], 10, "d"⟩]⟩).1
      = .found ⟨123, "9", .arr [⟨"tea", 10, some 1⟩], 10, "d"⟩ ∧
    (getInvoice "0x7b" ⟨[⟨123, "9", .arr [⟨"tea", 10, some 1⟩], 10, "d"⟩]⟩).1
      = .found ⟨123, "9", .arr [⟨"tea", 10, some 1⟩], 10, "d"⟩ :=
  ⟨C10_numeric_path_coercion_lookup ⟨[⟨123, "9", .arr [⟨"tea", 10, some 1⟩], 10, "d"⟩]⟩
      ⟨123, "9", .arr [⟨"tea", 10, some 1⟩], 10, "d"⟩ "123.0"
      (by decide) (by decide) (by decide),
   C10_numeric_path_coercion_lookup ⟨[⟨123, "9", .arr [⟨"tea", 10, some 1⟩], 10, "d"⟩]⟩
      ⟨123, "9", .arr [⟨"tea", 10, some 1⟩], 10, "d"⟩ " 123"
      (by decide) (by decide) (by decide),
   C10_numeric_path_coercion_lookup ⟨[⟨123, "9", .arr [⟨"tea", 10, some 1⟩], 10, "d"⟩]⟩
      ⟨123, "9", .arr [⟨"tea", 10, some 1⟩], 10, "d"⟩ "0x7b"
      (by decide) (by decide) (by decide)⟩
